import Mathlib

/-!
Verification development for the omnimodal platform core: the frontend
error handler, the streaming-response hook, and spec-level models of the
backend components (retry executor, executor registry, download manager,
process supervisor) whose implementations live behind the HTTP API.
-/

namespace Omnimodal

/-! ## Error values seen by ErrorHandler.handleApiError

The frontend utility ErrorHandler.handleApiError (frontend utils,
src/unnamed/part_004 and part_005) receives an arbitrary JavaScript value.
The embedding below captures exactly the shape distinctions the function
inspects: axios errors with/without a response, the three body fields it
reads (detail, error, message), standard Error objects, strings, plain
objects with string message/error fields, and everything else. -/

/-- One entry of a FastAPI-style validation error array: the code reads
only err.loc (joined with a dot, printing the string undefined when the
field is absent) and err.msg. -/
structure ValidationItem where
  loc : Option (List String)
  msg : String
deriving DecidableEq

/-- Value of a response-body field as inspected by handleApiError: a
string, an array of validation items, or anything else. -/
inductive JsField where
  | fstr (s : String)
  | farr (items : List ValidationItem)
  | fother
deriving DecidableEq

/-- The response body: either not a non-null object, or an object whose
detail / error / message fields are as given (none models both an absent
field and a field of irrelevant type, which the source treats alike). -/
inductive ResponseData where
  | notObj
  | obj (detail : Option JsField) (bodyError : Option JsField) (bodyMessage : Option JsField)
deriving DecidableEq

/-- An axios response: HTTP status number plus parsed body. -/
structure AxiosResponse where
  status : Nat
  data : ResponseData
deriving DecidableEq

/-- The input to handleApiError, by the shape tests the source performs:
axios errors (carrying optional response, a request flag, optional error
code, and the Error message used when neither response nor request is
set), plain Error objects, strings, plain objects with optional string
message/error fields, and all remaining values (null, undefined, numbers,
booleans), which share the final fallback. -/
inductive ApiError where
  | axiosErr (response : Option AxiosResponse) (request : Bool) (code : Option String) (message : String)
  | jsError (message : String)
  | strError (s : String)
  | objError (message : Option String) (objErr : Option String)
  | otherValue
deriving DecidableEq

/-- Status-number switch of handleApiError in src/unnamed/part_005. -/
def statusMessage (status : Nat) : String :=
  match status with
  | 400 => "Invalid request. Please check your input."
  | 401 => "Unauthorized. Please check your credentials."
  | 403 => "Access forbidden."
  | 404 => "Resource not found."
  | 408 => "Request timeout. Please try again."
  | 429 => "Too many requests. Please wait a moment."
  | 500 => "Server error. Please try again later."
  | 502 => "Bad gateway. The service may be temporarily unavailable."
  | 503 => "Service temporarily unavailable. Please try again later."
  | 504 => "Gateway timeout. The request took too long."
  | _ => "Request failed with status " ++ toString status

/-- Status-number switch of handleApiError in src/unnamed/part_004. -/
def statusMessageBasic (status : Nat) : String :=
  match status with
  | 400 => "Invalid request. Please check your input."
  | 401 => "Unauthorized. Please check your credentials."
  | 403 => "Access forbidden."
  | 404 => "Resource not found."
  | 500 => "Server error. Please try again later."
  | 503 => "Service temporarily unavailable."
  | _ => "Request failed with status " ++ toString status

/-- Formatting of one FastAPI validation item, following the template
string in src/unnamed/part_005 (err.loc joined with dots, the string
undefined when loc is absent, then a colon and err.msg). -/
def formatValidationItem (it : ValidationItem) : String :=
  match it.loc with
  | some parts => String.intercalate "." parts ++ ": " ++ it.msg
  | none => "undefined: " ++ it.msg

/-- ErrorHandler.handleApiError from src/unnamed/part_005: axios errors
with a response prefer the string fields detail, error, message of the
body in that order, then a validation-array detail, then a message chosen
by the HTTP status number; axios errors without a response but with a
request branch on the transport error code; remaining shapes fall through
to the Error message, the string itself, object message/error fields, and
finally the fixed fallback string. -/
def handleApiError (e : ApiError) : String :=
  match e with
  | .axiosErr response request code message =>
    match response with
    | some r =>
      match r.data with
      | .obj detail bodyError bodyMessage =>
        match detail with
        | some (.fstr s) => s
        | _ =>
          match bodyError with
          | some (.fstr s) => s
          | _ =>
            match bodyMessage with
            | some (.fstr s) => s
            | _ =>
              match detail with
              | some (.farr items) =>
                "Validation error: " ++
                  String.intercalate ", " (items.map formatValidationItem)
              | _ => statusMessage r.status
      | .notObj => statusMessage r.status
    | none =>
      if request then
        match code with
        | some c =>
          if c == "ECONNABORTED" then
            "Request timeout. Please check your connection and try again."
          else if c == "ERR_NETWORK" then
            "Network error. Please check your internet connection."
          else
            "Network error. Unable to reach the server."
        | none => "Network error. Unable to reach the server."
      else
        message
  | .jsError m => m
  | .strError s => s
  | .objError om oe =>
    match om with
    | some s => s
    | none =>
      match oe with
      | some s => s
      | none => "An unexpected error occurred"
  | .otherValue => "An unexpected error occurred"

/-- ErrorHandler.handleApiError from src/unnamed/part_004: the earlier
variant with the same field-preference order but no validation-array
branch, a shorter status switch, and a single network-error message that
ignores the transport error code. -/
def handleApiErrorBasic (e : ApiError) : String :=
  match e with
  | .axiosErr response request _code message =>
    match response with
    | some r =>
      match r.data with
      | .obj detail bodyError bodyMessage =>
        match detail with
        | some (.fstr s) => s
        | _ =>
          match bodyError with
          | some (.fstr s) => s
          | _ =>
            match bodyMessage with
            | some (.fstr s) => s
            | _ => statusMessageBasic r.status
      | .notObj => statusMessageBasic r.status
    | none =>
      if request then
        "Network error. Please check your connection."
      else
        message
  | .jsError m => m
  | .strError s => s
  | .objError om oe =>
    match om with
    | some s => s
    | none =>
      match oe with
      | some s => s
      | none => "An unexpected error occurred"
  | .otherValue => "An unexpected error occurred"

/-! ## The streaming hook

useStreamingResponse.stream (src/frontend/src/hooks/useStreamingResponse.ts)
reads the response body chunk by chunk, splits each chunk on newlines and
feeds every line through a parser that accumulates text and thinking
fragments, invoking the onChunk callback with each text fragment as it is
appended. Lines are modelled by the outcome of the shape tests the source
performs: blank lines, the SSE DONE sentinel, SSE data lines whose JSON
payload carries optional thinking / text / delta.content / message.content
strings, SSE data lines that fail to parse, plain JSON lines (from which
only the text field is read), and unparseable plain lines. -/

/-- Parsed JSON payload of an SSE data line, restricted to the four
fields the source reads. -/
structure SseJson where
  thinking : Option String
  text : Option String
  deltaContent : Option String
  messageContent : Option String
deriving DecidableEq

/-- One input line of the stream, by the shape tests of the source. -/
inductive StreamLine where
  | blank
  | sseDone
  | sseJson (p : SseJson)
  | sseBad
  | plainJson (text : Option String)
  | plainBad
deriving DecidableEq

/-- Accumulator state of the stream loop: the two accumulated strings of
the source plus, as instrumentation, the list of fragments passed to the
onChunk callback in order. -/
structure StreamState where
  accumulatedText : String
  accumulatedThinking : String
  chunkEvents : List String
deriving DecidableEq

/-- The paired statements accumulatedText += fragment and
onChunk(fragment) that the source executes for each present text-bearing
field. -/
def applyText (st : StreamState) (f : Option String) : StreamState :=
  match f with
  | some t =>
    { st with
      accumulatedText := st.accumulatedText ++ t,
      chunkEvents := st.chunkEvents ++ [t] }
  | none => st

/-- Processing of a single line by the loop body of stream: blank lines,
the DONE sentinel and parse failures leave the state unchanged; an SSE
JSON payload first appends thinking, then text, then delta.content, then
message.content; a plain JSON line appends only its text field. -/
def processLine (st : StreamState) (l : StreamLine) : StreamState :=
  match l with
  | .blank => st
  | .sseDone => st
  | .sseBad => st
  | .plainBad => st
  | .plainJson t => applyText st t
  | .sseJson p =>
    let st1 :=
      match p.thinking with
      | some t => { st with accumulatedThinking := st.accumulatedThinking ++ t }
      | none => st
    applyText (applyText (applyText st1 p.text) p.deltaContent) p.messageContent

/-- The initial accumulator of stream: both accumulators empty. -/
def initialStreamState : StreamState := ⟨"", "", []⟩

/-- Folding the loop body over the incoming lines. -/
def processStream (lines : List StreamLine) : StreamState :=
  lines.foldl processLine initialStreamState

/-- How a run of stream ends: the reader reports done, an AbortError is
thrown (caller-initiated cancellation), or some other error is thrown. -/
inductive StreamEnd where
  | finished
  | aborted
  | failed (e : ApiError)
deriving DecidableEq

/-- Observable outcome of one call to stream: the value returned to the
caller (none when the error is rethrown), the argument of the onComplete
callback if invoked, the argument of the onError callback if invoked, and
the onChunk fragments. -/
structure StreamRunResult where
  returned : Option (String × String)
  completeEvent : Option String
  errorEvent : Option String
  chunkEvents : List String
deriving DecidableEq

/-- One call to stream over the given lines with the given ending,
following the try/catch of the source: normal completion calls onComplete
with the accumulated text and returns both accumulators; an AbortError is
swallowed and the partial accumulators are returned with no callback; any
other error invokes onError with the message from
ErrorHandler.handleApiError and is rethrown. -/
def streamRun (lines : List StreamLine) (e : StreamEnd) : StreamRunResult :=
  let st := processStream lines
  match e with
  | .finished =>
    ⟨some (st.accumulatedText, st.accumulatedThinking),
      some st.accumulatedText, none, st.chunkEvents⟩
  | .aborted =>
    ⟨some (st.accumulatedText, st.accumulatedThinking),
      none, none, st.chunkEvents⟩
  | .failed err =>
    ⟨none, none, some (handleApiError err), st.chunkEvents⟩

/-! ## Spec-level models of the backend core

The retry executor, executor registry / job router, download manager and
process supervisor run inside the FastAPI backend, whose implementation
files are not part of the source tree here (only their HTTP clients in
src/frontend/src/services/api.ts, the hooks, and the backend README are).
The definitions below are therefore modelled from the spec, as their doc
comments state, and the frontend types they expose are taken from
api.ts. -/

/-- ExecutorStatus from src/frontend/src/services/api.ts: name,
process-level is_running, application-level healthy, and a diagnostic
detail map (modelled as an association list). -/
structure ExecutorStatus where
  name : String
  is_running : Bool
  healthy : Bool
  detail : List (String × String)
deriving DecidableEq

/-- Fallback status built by useModelInitialization
(src/frontend/src/hooks/useStreamingResponse.ts) when getExecutorStatus
throws: is_running and healthy both false, empty detail. -/
def fallbackStatus (executorName : String) : ExecutorStatus :=
  ⟨executorName, false, false, []⟩

/-- Outcome of the lightweight network probe a status query issues when
it does not short-circuit. -/
inductive ProbeOutcome where
  | ok (detail : List (String × String))
  | fail
deriving DecidableEq

/-- Modelled from the spec: an ExecutorDescriptor together with the
environment a status query consults — whether the executor owns a
supervised process, whether the Process Supervisor reports that process
running, and what the network probe would return. -/
structure ExecutorEntry where
  name : String
  hasProcess : Bool
  processRunning : Bool
  probe : ProbeOutcome
deriving DecidableEq

/-- Modelled from the spec: status(name) of the Executor Registry, which
is not in the source tree. If the executor owns a supervised process that
is not running, short-circuit to is_running=false, healthy=false without
a network call; otherwise issue one probe: on success the executor is
running and healthy with the probe detail, on failure it is unhealthy and
is_running reflects the supervised process when there is one. The second
component counts network calls made. -/
def statusOp (e : ExecutorEntry) : ExecutorStatus × Nat :=
  if e.hasProcess && !e.processRunning then
    (⟨e.name, false, false, []⟩, 0)
  else
    match e.probe with
    | .ok d => (⟨e.name, true, true, d⟩, 1)
    | .fail => (⟨e.name, e.hasProcess, false, []⟩, 1)

/-- The stable machine-readable error kinds of the exposed operations
(spec sections 6 and 7). -/
inductive TypedErrorKind where
  | notFound
  | unavailable
  | validation
  | upstream
  | timeout
  | duplicate
deriving DecidableEq

/-- Lookup of a registered executor by name in the registry. -/
def findExecutor (reg : List ExecutorEntry) (name : String) : Option ExecutorEntry :=
  reg.find? (fun e => e.name == name)

/-- Modelled from the spec: execute(name, request) of the Job Router,
which is not in the source tree. Validate that name is registered (else a
NotFound error, with no network call), validate that the executor is
healthy via its status (else an Unavailable error), then dispatch (one
further network call). The second component counts network calls made. -/
def executeOp (reg : List ExecutorEntry) (name : String) :
    Except TypedErrorKind String × Nat :=
  match findExecutor reg name with
  | none => (Except.error TypedErrorKind.notFound, 0)
  | some e =>
    let sc := statusOp e
    if sc.1.healthy then (Except.ok "dispatched", sc.2 + 1)
    else (Except.error TypedErrorKind.unavailable, sc.2)

/-! ## Retry executor (spec section 4.1) -/

/-- Retry policy of the Retry Executor (spec section 4.1). -/
structure RetryPolicy where
  maxAttempts : Nat
  initialDelay : Nat
  maxDelay : Nat
  exponentialBase : Nat
  jitter : Bool
deriving DecidableEq

/-- Modelled from the spec: the backoff delay before retry number
attempt, namely min(initial_delay * exponential_base^(attempt-1),
max_delay), ignoring jitter. -/
def backoffDelay (p : RetryPolicy) (attempt : Nat) : Nat :=
  min (p.initialDelay * p.exponentialBase ^ (attempt - 1)) p.maxDelay

/-- Modelled from the spec: the loop of the Retry Executor, which is not
in the source tree. The operation is modelled as a function from the
attempt number (starting at 1) to its outcome; remaining counts the
attempts still allowed including the current one. On failure, retry only
when the error is retryable and attempts remain; otherwise propagate the
final error unchanged. Returns the number of invocations made together
with the final outcome. -/
def retryAux {ε α : Type} (op : Nat → Except ε α) (retryable : ε → Bool)
    (attempt : Nat) : Nat → Nat × Except ε α
  | 0 => (attempt, op attempt)
  | 1 => (attempt, op attempt)
  | r + 2 =>
    match op attempt with
    | .ok a => (attempt, .ok a)
    | .error e =>
      if retryable e then retryAux op retryable (attempt + 1) (r + 1)
      else (attempt, .error e)

/-- Modelled from the spec: run(operation, policy, retryable_predicate)
of the Retry Executor, starting at attempt 1 with policy.maxAttempts
attempts allowed. -/
def retryRun {ε α : Type} (p : RetryPolicy) (op : Nat → Except ε α)
    (retryable : ε → Bool) : Nat × Except ε α :=
  retryAux op retryable 1 p.maxAttempts

/-! ## Download manager (spec section 4.4) -/

/-- DownloadStatus from src/frontend/src/services/api.ts. -/
inductive DownloadStatus where
  | queued
  | downloading
  | completed
  | failed
deriving DecidableEq

/-- DownloadTask from src/frontend/src/services/api.ts; the generated
task_id strings are modelled as naturals drawn from a counter. -/
structure DownloadTask where
  task_id : Nat
  source_id : String
  modality : String
  executor : String
  status : DownloadStatus
  progress : Nat
  error : Option String
  model_id : Option String
deriving DecidableEq

/-- A status is non-terminal when it is queued or downloading. -/
def isNonTerminal (s : DownloadStatus) : Bool :=
  match s with
  | .queued => true
  | .downloading => true
  | .completed => false
  | .failed => false

/-- The predicate picking out a non-terminal task for the given
(source_id, executor) pair. -/
def matchesPending (sid ex : String) (t : DownloadTask) : Bool :=
  t.source_id == sid && t.executor == ex && isNonTerminal t.status

/-- Modelled from the spec: the in-memory task table of the Download
Manager, which is not in the source tree, together with the counter
generating task ids. -/
structure DownloadManagerState where
  tasks : List DownloadTask
  nextId : Nat
deriving DecidableEq

/-- Modelled from the spec: schedule(source_id, modality, executor) of
the Download Manager, which is not in the source tree. If a non-terminal
task for this (source_id, executor) pair already exists, return it
unchanged; otherwise create a DownloadTask in queued state with progress
0 and enqueue it. -/
def schedule (st : DownloadManagerState) (sid modality ex : String) :
    DownloadTask × DownloadManagerState :=
  match st.tasks.find? (matchesPending sid ex) with
  | some t => (t, st)
  | none =>
    let t : DownloadTask := ⟨st.nextId, sid, modality, ex, .queued, 0, none, none⟩
    (t, ⟨st.tasks ++ [t], st.nextId + 1⟩)

/-- Number of non-terminal tasks for a given pair in a task table. -/
def pendingCount (sid ex : String) (tasks : List DownloadTask) : Nat :=
  tasks.countP (fun t => matchesPending sid ex t)

/-- The spec invariant: at most one non-terminal task per
(source_id, executor) pair. -/
def atMostOnePending (tasks : List DownloadTask) : Prop :=
  ∀ sid ex, pendingCount sid ex tasks ≤ 1

/-- Modelled from the spec and the backend README: the progress value
reported after received bytes of a total-byte artifact have arrived,
clamped to 100. Progress is a natural, so the lower bound 0 is
inherent. -/
def progressAfter (total received : Nat) : Nat :=
  min 100 (received * 100 / total)

/-- Modelled from the spec: the successive progress values the worker
writes while streaming an artifact whose chunks arrive with the given
sizes — the running received total mapped through progressAfter. -/
def progressTrace (total : Nat) (chunks : List Nat) : List Nat :=
  (chunks.scanl (· + ·) 0).map (progressAfter total)

/-- Modelled from the spec: the successive states of a task as read back
while its worker streams the artifact. -/
def workerStates (t : DownloadTask) (total : Nat) (chunks : List Nat) :
    List DownloadTask :=
  (progressTrace total chunks).map
    (fun p => { t with status := DownloadStatus.downloading, progress := p })

/-! ## Process supervisor (spec section 4.2) -/

/-- The process state machine of the spec. -/
inductive ProcState where
  | stopped
  | starting
  | running
  | unhealthy
  | restarting
  | failedPermanently
deriving DecidableEq

/-- ProcessHandle of the spec data model (the fields stop touches). -/
structure ProcessHandle where
  name : String
  state : ProcState
  pid : Option Nat
  consecutiveFailures : Nat
  restartCount : Nat
deriving DecidableEq

/-- Modelled from the spec: stop(name) of the Process Supervisor, which
is not in the source tree. On an already-stopped handle it is a no-op
that still returns success; otherwise it terminates the OS process and
transitions the handle to Stopped, clearing the pid. The boolean is the
success result. -/
def stopProc (h : ProcessHandle) : ProcessHandle × Bool :=
  match h.state with
  | .stopped => (h, true)
  | _ => ({ h with state := .stopped, pid := none }, true)

/-! ## Helper lemmas -/

theorem join_append_single (ls : List String) (s : String) :
    String.join (ls ++ [s]) = String.join ls ++ s := by
  simp [String.join, List.foldl_append]

theorem applyText_text_eq_join (st : StreamState) (f : Option String)
    (h : st.accumulatedText = String.join st.chunkEvents) :
    (applyText st f).accumulatedText = String.join (applyText st f).chunkEvents := by
  cases f with
  | none => exact h
  | some t => simp [applyText, join_append_single, h]

theorem processLine_text_eq_join (st : StreamState) (l : StreamLine)
    (h : st.accumulatedText = String.join st.chunkEvents) :
    (processLine st l).accumulatedText = String.join (processLine st l).chunkEvents := by
  cases l with
  | blank => exact h
  | sseDone => exact h
  | sseBad => exact h
  | plainBad => exact h
  | plainJson t => exact applyText_text_eq_join st t h
  | sseJson p =>
    apply applyText_text_eq_join
    apply applyText_text_eq_join
    apply applyText_text_eq_join
    cases p.thinking with
    | none => exact h
    | some t => exact h

theorem foldl_processLine_text_eq_join (lines : List StreamLine) (st : StreamState)
    (h : st.accumulatedText = String.join st.chunkEvents) :
    (lines.foldl processLine st).accumulatedText =
      String.join (lines.foldl processLine st).chunkEvents := by
  induction lines generalizing st with
  | nil => exact h
  | cons l rest ih => exact ih (processLine st l) (processLine_text_eq_join st l h)

theorem processStream_text_eq_join (lines : List StreamLine) :
    (processStream lines).accumulatedText =
      String.join (processStream lines).chunkEvents :=
  foldl_processLine_text_eq_join lines initialStreamState rfl

/-! ## Claim theorems -/

/-- C10: for every stream that runs to completion without being aborted,
the string passed to onComplete equals the concatenation, in arrival
order, of exactly the text fragments passed to onChunk, and input lines
that are blank or fail to parse as JSON (in either the SSE or the plain
position) leave the accumulator state unchanged. -/
theorem claim_C10_complete_is_chunk_concat :
    (∀ lines : List StreamLine,
      (streamRun lines StreamEnd.finished).completeEvent =
        some (String.join ((streamRun lines StreamEnd.finished).chunkEvents))) ∧
    (∀ st : StreamState, processLine st StreamLine.blank = st) ∧
    (∀ st : StreamState, processLine st StreamLine.sseBad = st) ∧
    (∀ st : StreamState, processLine st StreamLine.plainBad = st) := by
  refine ⟨fun lines => ?_, fun st => rfl, fun st => rfl, fun st => rfl⟩
  show some (processStream lines).accumulatedText = some (String.join (processStream lines).chunkEvents)
  rw [processStream_text_eq_join]

/-- C5 counterexample: after a caller-initiated cancellation
(AbortError), stream returns a normal result carrying the partial
accumulated text, and the onError callback is never invoked — the
operation does not finish with a Cancelled/Timeout error. -/
theorem claim_C5_counterexample :
    ¬ ((streamRun [StreamLine.sseJson ⟨none, some "hel", none, none⟩,
        StreamLine.sseJson ⟨none, some "lo", none, none⟩]
        StreamEnd.aborted).returned = none) ∧
    (streamRun [StreamLine.sseJson ⟨none, some "hel", none, none⟩,
        StreamLine.sseJson ⟨none, some "lo", none, none⟩]
        StreamEnd.aborted).errorEvent = none := by
  constructor
  · intro h
    simp [streamRun, processStream, processLine, applyText, initialStreamState] at h
  · rfl

/-- C5 as amended: a caller-initiated cancellation aborts the in-flight
stream, after which the stream call returns normally with exactly the
partial text accumulated so far (the concatenation of the onChunk
fragments already delivered), invoking neither onComplete nor onError. -/
theorem claim_C5_cancel_normal_result :
    ∀ lines : List StreamLine,
      (streamRun lines StreamEnd.aborted).returned =
        some (String.join ((streamRun lines StreamEnd.aborted).chunkEvents),
          (processStream lines).accumulatedThinking) ∧
      (streamRun lines StreamEnd.aborted).completeEvent = none ∧
      (streamRun lines StreamEnd.aborted).errorEvent = none := by
  intro lines
  refine ⟨?_, rfl, rfl⟩
  show some ((processStream lines).accumulatedText, (processStream lines).accumulatedThinking) = _
  rw [processStream_text_eq_join]
  rfl

/-- C1 counterexample: the error-handling caller
ErrorHandler.handleApiError does branch on raw HTTP status numbers — two
failing responses identical except for their status number (404 versus
500, with no extractable body field) produce different results. -/
theorem claim_C1_counterexample :
    handleApiError (ApiError.axiosErr (some ⟨404, ResponseData.notObj⟩) true none "boom") ≠
      handleApiError (ApiError.axiosErr (some ⟨500, ResponseData.notObj⟩) true none "boom") := by
  decide

/-- C1 as amended: every failing call handled by the frontend error
handler yields a string message chosen as follows: a string detail field
in the response body is returned verbatim regardless of the status
number; a body with no extractable field yields a message chosen by
branching on the raw HTTP status number; a transport failure without a
response yields a message chosen by branching on the transport error
code. No machine-readable typed kind is consulted. -/
theorem claim_C1_caller_branches_on_status :
    (∀ (st : Nat) (de dm : Option JsField) (r : Bool) (c : Option String) (m s : String),
      handleApiError (ApiError.axiosErr
        (some ⟨st, ResponseData.obj (some (JsField.fstr s)) de dm⟩) r c m) = s) ∧
    (∀ (st : Nat) (r : Bool) (c : Option String) (m : String),
      handleApiError (ApiError.axiosErr (some ⟨st, ResponseData.notObj⟩) r c m) =
        statusMessage st) ∧
    (∀ m : String,
      handleApiError (ApiError.axiosErr none true (some "ECONNABORTED") m) =
        "Request timeout. Please check your connection and try again.") ∧
    (∀ m : String,
      handleApiError (ApiError.axiosErr none true none m) =
        "Network error. Unable to reach the server.") :=
  ⟨fun _ _ _ _ _ _ _ => rfl, fun _ _ _ _ => rfl, fun _ => rfl, fun _ => rfl⟩

/-- C9: ErrorHandler.handleApiError (both the part_005 and the part_004
variant) is a total function into strings; when the server response body
carries a string detail field that exact string is returned in preference
to any status-code-derived message, and when no message can be extracted
(a non-object non-string value, or an object with no string
message/error field) the fixed fallback string is returned. -/
theorem claim_C9_handleApiError_total :
    (∀ (st : Nat) (de dm : Option JsField) (r : Bool) (c : Option String) (m s : String),
      handleApiError (ApiError.axiosErr
        (some ⟨st, ResponseData.obj (some (JsField.fstr s)) de dm⟩) r c m) = s) ∧
    (∀ (st : Nat) (de dm : Option JsField) (r : Bool) (c : Option String) (m s : String),
      handleApiErrorBasic (ApiError.axiosErr
        (some ⟨st, ResponseData.obj (some (JsField.fstr s)) de dm⟩) r c m) = s) ∧
    handleApiError ApiError.otherValue = "An unexpected error occurred" ∧
    handleApiError (ApiError.objError none none) = "An unexpected error occurred" ∧
    handleApiErrorBasic ApiError.otherValue = "An unexpected error occurred" ∧
    handleApiErrorBasic (ApiError.objError none none) = "An unexpected error occurred" :=
  ⟨fun _ _ _ _ _ _ _ => rfl, fun _ _ _ _ _ _ _ => rfl, rfl, rfl, rfl, rfl⟩

/-- C2: for every status produced by the modelled status query, healthy
is false whenever is_running is false; when the executor owns a
supervised process that is not running, the query short-circuits to
is_running=false, healthy=false with zero network calls; and the
frontend fallback status built when the status call throws also has both
flags false. -/
theorem claim_C2_not_running_not_healthy :
    ∀ e : ExecutorEntry,
      ((statusOp e).1.is_running = false → (statusOp e).1.healthy = false) ∧
      (e.hasProcess = true → e.processRunning = false →
        statusOp e = (⟨e.name, false, false, []⟩, 0)) ∧
      (∀ n : String,
        (fallbackStatus n).is_running = false ∧ (fallbackStatus n).healthy = false) := by
  intro e
  obtain ⟨n, hp, pr, pb⟩ := e
  refine ⟨?_, ?_, fun s => ⟨rfl, rfl⟩⟩
  · cases hp <;> cases pr <;> cases pb <;> simp [statusOp]
  · intro h1 h2
    subst h1
    subst h2
    simp [statusOp]

/-- C2 witness: a concrete executor with a supervised process that is
not running short-circuits to both flags false and zero network calls,
and its status is unhealthy. -/
theorem claim_C2_witness :
    statusOp ⟨"ollama", true, false, ProbeOutcome.fail⟩ =
      (⟨"ollama", false, false, []⟩, 0) ∧
    (statusOp ⟨"ollama", true, false, ProbeOutcome.fail⟩).1.healthy = false :=
  ⟨(claim_C2_not_running_not_healthy _).2.1 rfl rfl,
   (claim_C2_not_running_not_healthy _).1 rfl⟩

/-- C3: under a policy with max_attempts=3, an operation failing
retryably on its first two invocations and succeeding on the third is
invoked exactly 3 times with overall success; an operation failing
non-retryably on its first invocation is invoked exactly once under any
policy, its error propagated unchanged. -/
theorem claim_C3_retry_counts :
    (∀ (ε α : Type) (p : RetryPolicy) (op : Nat → Except ε α) (retryable : ε → Bool)
        (e1 e2 : ε) (v : α),
      p.maxAttempts = 3 → op 1 = Except.error e1 → retryable e1 = true →
      op 2 = Except.error e2 → retryable e2 = true → op 3 = Except.ok v →
      retryRun p op retryable = (3, Except.ok v)) ∧
    (∀ (ε α : Type) (p : RetryPolicy) (op : Nat → Except ε α) (retryable : ε → Bool) (e : ε),
      op 1 = Except.error e → retryable e = false →
      retryRun p op retryable = (1, Except.error e)) := by
  constructor
  · intro ε α p op retryable e1 e2 v hmax h1 hr1 h2 hr2 h3
    rw [retryRun, hmax]
    simp [retryAux, h1, hr1, h2, hr2, h3]
  · intro ε α p op retryable e h1 hr
    rw [retryRun]
    match p.maxAttempts with
    | 0 => simp [retryAux, h1]
    | 1 => simp [retryAux, h1]
    | r + 2 => simp [retryAux, h1, hr]

/-- C3 witness: a concrete operation failing retryably on attempts 1 and
2 and succeeding on attempt 3 runs to (3, ok), and a concrete operation
with a non-retryable error stops at (1, error). -/
theorem claim_C3_witness :
    retryRun ⟨3, 1, 10, 2, false⟩
      (fun n => if n ≤ 2 then Except.error n else Except.ok 42)
      (fun _ => true) = (3, Except.ok 42) ∧
    retryRun ⟨3, 1, 10, 2, false⟩
      (fun _ : Nat => (Except.error 7 : Except Nat Nat))
      (fun _ => false) = (1, Except.error 7) :=
  ⟨claim_C3_retry_counts.1 Nat Nat _ _ _ 1 2 42 rfl rfl rfl rfl rfl rfl,
   claim_C3_retry_counts.2 Nat Nat _ _ _ 7 rfl rfl⟩

/-- C4: scheduling a download while a non-terminal task for the same
(source_id, executor) pair exists returns that task unchanged with the
state unchanged; scheduling twice in a row returns the identical task and
leaves the table of the first call untouched; and schedule preserves the
at-most-one-non-terminal-task-per-pair invariant. -/
theorem claim_C4_schedule_idempotent :
    (∀ (st : DownloadManagerState) (sid m ex : String) (t : DownloadTask),
      st.tasks.find? (matchesPending sid ex) = some t →
      schedule st sid m ex = (t, st)) ∧
    (∀ (st : DownloadManagerState) (sid m ex : String),
      schedule (schedule st sid m ex).2 sid m ex =
        ((schedule st sid m ex).1, (schedule st sid m ex).2)) ∧
    (∀ (st : DownloadManagerState) (sid m ex : String),
      atMostOnePending st.tasks →
      atMostOnePending (schedule st sid m ex).2.tasks) := by
  refine ⟨?_, ?_, ?_⟩
  · intro st sid m ex t h
    simp [schedule, h]
  · intro st sid m ex
    cases h : st.tasks.find? (matchesPending sid ex) with
    | some t => simp [schedule, h]
    | none =>
      have hfind : ((st.tasks ++
          [(⟨st.nextId, sid, m, ex, .queued, 0, none, none⟩ : DownloadTask)]).find?
          (matchesPending sid ex)) =
          some ⟨st.nextId, sid, m, ex, .queued, 0, none, none⟩ := by
        rw [List.find?_append, h]
        simp [matchesPending, isNonTerminal]
      simp [schedule, h, hfind]
  · intro st sid m ex hinv
    cases h : st.tasks.find? (matchesPending sid ex) with
    | some t => simpa [schedule, h] using hinv
    | none =>
      simp only [schedule, h]
      intro sid2 ex2
      rw [pendingCount, List.countP_append]
      by_cases hm : matchesPending sid2 ex2 ⟨st.nextId, sid, m, ex, .queued, 0, none, none⟩
      · have hsid : sid = sid2 ∧ ex = ex2 := by
          simp [matchesPending] at hm
          exact hm.1
        have hzero : st.tasks.countP (fun t => matchesPending sid2 ex2 t) = 0 := by
          apply List.countP_eq_zero.2
          intro x hx
          have := List.find?_eq_none.1 h x hx
          rw [← hsid.1, ← hsid.2]
          simpa using this
        rw [hzero]
        simp [hm]
      · simp only [List.countP_cons, List.countP_nil, hm]
        have := hinv sid2 ex2
        rw [pendingCount] at this
        simpa using this

/-- C4 witness: rescheduling over a table that already holds a queued
task for the pair (m1, ollama) returns that very task and leaves the
state unchanged, and scheduling into an empty table preserves the
invariant. -/
theorem claim_C4_witness :
    schedule ⟨[⟨5, "m1", "text", "ollama", .queued, 0, none, none⟩], 6⟩ "m1" "text" "ollama" =
      (⟨5, "m1", "text", "ollama", .queued, 0, none, none⟩,
        ⟨[⟨5, "m1", "text", "ollama", .queued, 0, none, none⟩], 6⟩) ∧
    atMostOnePending ((schedule ⟨[], 0⟩ "m1" "text" "ollama").2.tasks) :=
  ⟨claim_C4_schedule_idempotent.1 _ "m1" "text" "ollama" _ rfl,
   claim_C4_schedule_idempotent.2.2 ⟨[], 0⟩ "m1" "text" "ollama"
     (fun _ _ => by simp [pendingCount])⟩

/-- C6: executing against a name that is not registered returns a
NotFound error with zero network calls made. -/
theorem claim_C6_execute_missing_notfound :
    ∀ (reg : List ExecutorEntry) (name : String),
      findExecutor reg name = none →
      executeOp reg name = (Except.error TypedErrorKind.notFound, 0) := by
  intro reg name h
  simp [executeOp, h]

/-- C6 witness: executing against the name missing-executor in an empty
registry yields the NotFound error with zero network calls. -/
theorem claim_C6_witness :
    executeOp [] "missing-executor" = (Except.error TypedErrorKind.notFound, 0) :=
  claim_C6_execute_missing_notfound [] "missing-executor" rfl

/-- C8: stopping an already-stopped process handle is a no-op that still
returns success and leaves the handle in Stopped. -/
theorem claim_C8_stop_idempotent :
    ∀ h : ProcessHandle, h.state = ProcState.stopped → stopProc h = (h, true) := by
  intro h hs
  obtain ⟨n, s, p, cf, rc⟩ := h
  cases hs
  rfl

/-- C8 witness: stopping a concrete stopped handle returns it unchanged
with success. -/
theorem claim_C8_witness :
    stopProc ⟨"ollama", ProcState.stopped, none, 0, 0⟩ =
      (⟨"ollama", ProcState.stopped, none, 0, 0⟩, true) :=
  claim_C8_stop_idempotent _ rfl

theorem progressAfter_mono (total : Nat) {r rp : Nat} (h : r ≤ rp) :
    progressAfter total r ≤ progressAfter total rp :=
  min_le_min (le_refl 100) (Nat.div_le_div_right (Nat.mul_le_mul_right _ h))

theorem chain_le_scanl_add (l : List Nat) (a : Nat) :
    List.Chain' (· ≤ ·) (l.scanl (· + ·) a) := by
  induction l generalizing a with
  | nil => simp [List.scanl_nil]
  | cons x xs ih =>
    rw [List.scanl_cons]
    refine List.chain'_cons'.2 ⟨?_, ih (a + x)⟩
    intro h hh
    cases xs with
    | nil =>
      simp [List.scanl_nil] at hh
      omega
    | cons y ys =>
      rw [List.scanl_cons] at hh
      simp at hh
      omega

/-- C7: across the successive reads of a download task while its worker
streams the artifact, the progress field never decreases and stays at
most 100 (the lower bound 0 holds because progress is a natural). -/
theorem claim_C7_progress_monotone :
    ∀ (t : DownloadTask) (total : Nat) (chunks : List Nat),
      List.Chain' (fun a b => a.progress ≤ b.progress) (workerStates t total chunks) ∧
      ∀ s ∈ workerStates t total chunks, s.progress ≤ 100 := by
  intro t total chunks
  constructor
  · rw [workerStates, List.chain'_map, progressTrace, List.chain'_map]
    exact List.Chain'.imp (fun a b hab => progressAfter_mono total hab)
      (chain_le_scanl_add chunks 0)
  · intro s hs
    rw [workerStates] at hs
    obtain ⟨p, hp, rfl⟩ := List.mem_map.1 hs
    rw [progressTrace] at hp
    obtain ⟨r, hr, rfl⟩ := List.mem_map.1 hp
    exact min_le_left _ _

end Omnimodal
